import Mathlib

set_option maxRecDepth 400000

/-!
Verification of `CLAUDE_EXECUTE_NOW.py` (voiceroi-circuit-breaker-fix).

The script is a one-shot remediation tool: it patches three files of a target
service (`app/services/infra.py`, `app/main.py`, `app/metrics.py`), keeping a
`.backup` copy per existing file, and contains (but does not automatically run)
deployment and smoke-test steps.

Shallow embedding:
* the file system is a map from paths to optional contents;
* Python's `re.search` / `re.sub` are modelled by a backtracking matcher on
  `List Char` that follows the CPython engine's preference order (greedy
  operators try the longer continuation first, lazy ones the shorter);
  recursion is bounded by an explicit fuel that dominates the nesting depth
  of the backtracking search, so the definitions compute by `decide`/`rfl`;
* the Python code templates that the script installs (`INFRA_PY_FIXED`,
  `METRICS_PY_FIXED`) are embedded both as literal strings (for the
  file-writing claims) and as Lean functions/data (for the claims about the
  behaviour of the installed code);
* exceptions are `Except`/sum types; `CircuitBreakerOpen` is distinguished
  from ordinary wrapped-operation exceptions;
* the circuit breaker itself lives in `app.middleware.circuit_breaker` of the
  target service and is not part of this repository's sources, so it is
  modelled from the specification's state-machine contract (see
  `SpecBreaker.CircuitBreaker.call`).
-/

/-! ## Python-level basics -/

/-- A Python exception value, as far as the embedded code distinguishes them. -/
inductive PyErr where
  | valueError (msg : String)
  | fileNotFoundError (path : String)
  | other (msg : String)
deriving DecidableEq, Repr

/-- Python `str(e)` on the exceptions above (the message text). -/
def PyErr.toStr : PyErr → String
  | .valueError m => m
  | .fileNotFoundError p => p
  | .other m => m

/-- Python's `\s` character class, restricted to the ASCII whitespace
characters (` `, `\t`, `\n`, `\r`, `\x0b`, `\x0c`); non-ASCII Unicode
whitespace is not modelled. -/
def pyWS (c : Char) : Bool :=
  c = ' ' || c = '\t' || c = '\n' || c = '\r' || c = '\x0b' || c = '\x0c'

/-- Python `str.strip()` (with ASCII whitespace, see `pyWS`). -/
def pyStrip (s : String) : String :=
  ⟨((s.data.dropWhile pyWS).reverse.dropWhile pyWS).reverse⟩

/-! ## A model of Python `re` for the patterns the script uses

CPython's `re` engine is a backtracking matcher.  `reRun r s k` tries to match
the regex `r` at the start of `s` and calls the continuation `k` on the
remaining suffix, returning the first success in the engine's preference
order: a greedy star tries one more iteration before falling back to the
continuation, a lazy star tries the continuation first.  An iteration of a
star that consumes nothing terminates the star (CPython's empty-match rule).
The `fuel` argument only bounds the depth of nested re-entries; `matchFuel`
below is large enough that it is never exhausted for the patterns at hand. -/

/-- Regular expressions as used by the script: literals, character classes,
concatenation, greedy star and lazy star.  `plusG`/`plusL` below build the
greedy/lazy `+` operators. -/
inductive RE where
  | eps : RE
  | lit : Char → RE
  | cls : (Char → Bool) → RE
  | seq : RE → RE → RE
  | starG : RE → RE
  | starL : RE → RE

/-- Greedy `r+` is `r` followed by greedy `r*`. -/
def RE.plusG (r : RE) : RE := .seq r (.starG r)

/-- Lazy `r+?` is `r` followed by lazy `r*?`. -/
def RE.plusL (r : RE) : RE := .seq r (.starL r)

/-- A literal string, as a sequence of literal characters. -/
def RE.strLit (s : String) : RE :=
  s.data.foldr (fun c acc => .seq (.lit c) acc) .eps

/-- Structural size of a regex, used to compute an adequate fuel. -/
def RE.size : RE → Nat
  | .eps => 1
  | .lit _ => 1
  | .cls _ => 1
  | .seq a b => a.size + b.size + 1
  | .starG a => a.size + 1
  | .starL a => a.size + 1

/-- The backtracking matcher (see the section comment).  Returns the suffix
left after the first match found in CPython preference order, or `none`. -/
def reRun : Nat → RE → List Char → (List Char → Option (List Char)) →
    Option (List Char)
  | 0, _, _, _ => none
  | fuel + 1, r, s, k =>
    match r with
    | .eps => k s
    | .lit c =>
      match s with
      | [] => none
      | c' :: rest => if c' = c then k rest else none
    | .cls p =>
      match s with
      | [] => none
      | c' :: rest => if p c' then k rest else none
    | .seq a b => reRun fuel a s (fun s' => reRun fuel b s' k)
    | .starG a =>
      (reRun fuel a s (fun s' =>
        if s'.length < s.length then reRun fuel (.starG a) s' k else none))
        <|> k s
    | .starL a =>
      k s <|> reRun fuel a s (fun s' =>
        if s'.length < s.length then reRun fuel (.starL a) s' k else none)

/-- Fuel that dominates the depth of nested `reRun` re-entries: each star can
iterate at most `s.length` times and each iteration re-enters through the
body, so `(size + 2) * (length + 2)` is a comfortable bound. -/
def matchFuel (r : RE) (s : List Char) : Nat :=
  (r.size + 2) * (s.length + 2)

/-- Try to match `r` at the start of `s` (Python's `re.match` at one
position); returns the suffix after the preferred match. -/
def tryMatch (r : RE) (s : List Char) : Option (List Char) :=
  reRun (matchFuel r s) r s some

/-- Python `re.search(r, s) is not None`: try every start position, left to
right. -/
def pySearchAux (r : RE) : List Char → Bool
  | [] => (tryMatch r []).isSome
  | c :: rest => (tryMatch r (c :: rest)).isSome || pySearchAux r rest

/-- Python `re.search` presence check on a `String`. -/
def pySearch (r : RE) (s : String) : Bool :=
  pySearchAux r s.data

/-- Python `re.sub(r, repl, s)` scanning: at each position, if `r` matches,
emit `repl` and continue after the match (after an empty match, also copy one
character, CPython's rule); otherwise copy one character.  The fuel
`s.length + 1` is enough for the whole scan; on exhaustion the rest is kept
unchanged. -/
def pySubAux (r : RE) (repl : List Char) : Nat → List Char → List Char
  | 0, s => s
  | fuel + 1, s =>
    match tryMatch r s with
    | some t =>
      if t.length < s.length then repl ++ pySubAux r repl fuel t
      else
        match s with
        | [] => repl
        | c :: rest => repl ++ c :: pySubAux r repl fuel rest
    | none =>
      match s with
      | [] => []
      | c :: rest => c :: pySubAux r repl fuel rest

/-- Python `re.sub(r, repl, s)` on `String`s (the replacement strings used by
the script contain no backslash escapes, so `repl` is literal). -/
def pySub (r : RE) (repl : String) (s : String) : String :=
  ⟨pySubAux r repl.data (s.data.length + 1) s.data⟩

/-! ## The three patterns of `step3_fix_main_get_embedding`

Compiled by hand from the Python pattern strings.  Negated classes `[^x]`
match any character (including newline) other than `x`, so the `re.DOTALL`
flag passed with the primary pattern is inert (the pattern contains no bare
`.`); `[\s\S]` matches every character. -/

/-- `async def get_embedding\(text: str\)[^:]*:[^}]+?return resp\.data\[0\]\.embedding` -/
def primaryPattern : RE :=
  .seq (RE.strLit "async def get_embedding(text: str)")
    (.seq (.starG (.cls (fun c => c != ':')))
      (.seq (.lit ':')
        (.seq (RE.plusL (.cls (fun c => c != '\x7d')))
          (RE.strLit "return resp.data[0].embedding"))))

/-- `async def get_embedding\([^)]+\):[\s\S]*?return[^\n]+embedding` -/
def altPattern : RE :=
  .seq (RE.strLit "async def get_embedding(")
    (.seq (RE.plusG (.cls (fun c => c != ')')))
      (.seq (RE.strLit "):")
        (.seq (.starL (.cls (fun _ => true)))
          (.seq (RE.strLit "return")
            (.seq (RE.plusG (.cls (fun c => c != '\n')))
              (RE.strLit "embedding"))))))

/-- `APP_VERSION\s*=\s*"[^"]+"` -/
def appVersionPattern : RE :=
  .seq (RE.strLit "APP_VERSION")
    (.seq (.starG (.cls pyWS))
      (.seq (.lit '=')
        (.seq (.starG (.cls pyWS))
          (.seq (.lit '"')
            (.seq (RE.plusG (.cls (fun c => c != '"')))
              (.lit '"'))))))

/-- The replacement text of the `APP_VERSION` substitution in
`step3_fix_main_get_embedding`. -/
def APP_VERSION_REPLACEMENT : String :=
  "APP_VERSION = \"1.0.6-circuit-breakers-fixed\""

/-! ## The code templates the script installs (literal file contents) -/

/-- The exact value of the Python string literal `INFRA_PY_FIXED`
(`CLAUDE_EXECUTE_NOW.py`, lines 42–142); braces, apostrophes and quotes are
written with escapes but denote the same characters. -/
def INFRA_PY_FIXED : String := String.intercalate "\n" [
  "\"\"\"",
  "VoiceROI RAG API - Infrastructure Services",
  "Canonical embedding function - ALL embedding calls MUST go through here.",
  "",
  "Version: 1.0.6-circuit-breaker-fixed",
  "\"\"\"",
  "",
  "import os",
  "import logging",
  "import asyncio",
  "from typing import Optional, List",
  "from openai import AsyncOpenAI",
  "from redis.asyncio import Redis",
  "",
  "from app.middleware.circuit_breaker import (",
  "    embedding_breaker,",
  "    redis_breaker,",
  "    CircuitBreakerOpen,",
  ")",
  "",
  "logger = logging.getLogger(\"voiceroi.infra\")",
  "",
  "# Initialize OpenAI client",
  "openai_client = AsyncOpenAI(api_key=os.getenv(\"OPENAI_API_KEY\"))",
  "",
  "# Redis connection (initialized lazily)",
  "_redis_client: Optional[Redis] = None",
  "",
  "",
  "async def get_redis_client() -> Redis:",
  "    \"\"\"Get or create Redis client.\"\"\"",
  "    global _redis_client",
  "    if _redis_client is None:",
  "        redis_url = os.getenv(\"REDIS_URL\")",
  "        if not redis_url:",
  "            raise ValueError(\"REDIS_URL not configured\")",
  "        _redis_client = Redis.from_url(",
  "            redis_url,",
  "            decode_responses=True,",
  "            socket_timeout=5.0,",
  "            socket_connect_timeout=5.0,",
  "        )",
  "    return _redis_client",
  "",
  "",
  "async def embed_text(text: str) -> List[float]:",
  "    \"\"\"",
  "    Get embedding for text using OpenAI.",
  "    ",
  "    THIS IS THE CANONICAL EMBEDDING FUNCTION.",
  "    All embedding calls in the entire codebase MUST route through here.",
  "    Protected by embedding_breaker circuit breaker.",
  "    ",
  "    Args:",
  "        text: Text to embed",
  "        ",
  "    Returns:",
  "        List of floats representing the embedding vector",
  "        ",
  "    Raises:",
  "        CircuitBreakerOpen: If embedding service is unavailable",
  "    \"\"\"",
  "    async def _do_embed():",
  "        response = await openai_client.embeddings.create(",
  "            input=text,",
  "            model=\"text-embedding-3-small\",",
  "        )",
  "        return response.data[0].embedding",
  "    ",
  "    try:",
  "        embedding = await embedding_breaker.call(_do_embed)",
  "        logger.debug(f\"embed_text: Generated embedding via breaker for \x27\x7btext[:40]\x7d...\x27\")",
  "        return embedding",
  "    except CircuitBreakerOpen:",
  "        logger.warning(f\"embed_text: Circuit OPEN, cannot embed \x27\x7btext[:40]\x7d...\x27\")",
  "        raise",
  "    except Exception as e:",
  "        logger.error(f\"embed_text: Failed to embed text: \x7be\x7d\")",
  "        raise",
  "",
  "",
  "async def health_check() -> dict:",
  "    \"\"\"",
  "    Check health of Redis connection.",
  "    Protected by redis_breaker circuit breaker.",
  "    \"\"\"",
  "    async def _do_ping():",
  "        client = await get_redis_client()",
  "        await client.ping()",
  "        return True",
  "    ",
  "    try:",
  "        await redis_breaker.call(_do_ping)",
  "        return \x7b\"redis\": \"connected\", \"status\": \"healthy\"\x7d",
  "    except CircuitBreakerOpen:",
  "        return \x7b\"redis\": \"circuit_open\", \"status\": \"degraded\"\x7d",
  "    except Exception as e:",
  "        logger.error(f\"Health check failed: \x7be\x7d\")",
  "        return \x7b\"redis\": \"error\", \"status\": \"unhealthy\", \"error\": str(e)\x7d",
  ""
]

/-- The exact value of the Python string literal `GET_EMBEDDING_FIXED`
(`CLAUDE_EXECUTE_NOW.py`, lines 168–179): starts and ends with a newline;
`step3_fix_main_get_embedding` substitutes its `.strip()`. -/
def GET_EMBEDDING_FIXED : String := String.intercalate "\n" [
  "",
  "async def get_embedding(text: str) -> list[float]:",
  "    \"\"\"",
  "    Get embedding for semantic cache lookup.",
  "    Routes through canonical embed_text() which is protected by circuit breaker.",
  "    ",
  "    IMPORTANT: This function MUST call embed_text from infra.py to ensure",
  "    all embeddings go through the circuit breaker.",
  "    \"\"\"",
  "    from app.services.infra import embed_text",
  "    return await embed_text(text)",
  ""
]

/-- The exact value of the Python string literal `METRICS_PY_FIXED`
(`CLAUDE_EXECUTE_NOW.py`, lines 233–307). -/
def METRICS_PY_FIXED : String := String.intercalate "\n" [
  "\"\"\"",
  "VoiceROI RAG API - Prometheus Metrics",
  "Standardized metric names with voiceroi_ prefix.",
  "\"\"\"",
  "",
  "from prometheus_client import Counter, Gauge, generate_latest, CONTENT_TYPE_LATEST",
  "",
  "# Circuit Breaker Metrics - STANDARDIZED NAMES",
  "voiceroi_circuit_calls_total = Counter(",
  "    \"voiceroi_circuit_calls_total\",",
  "    \"Total calls through circuit breaker\",",
  "    [\"name\"],",
  ")",
  "",
  "voiceroi_circuit_successes_total = Counter(",
  "    \"voiceroi_circuit_successes_total\",",
  "    \"Successful calls through circuit breaker\",",
  "    [\"name\"],",
  ")",
  "",
  "voiceroi_circuit_failures_total = Counter(",
  "    \"voiceroi_circuit_failures_total\",",
  "    \"Failed calls through circuit breaker\",",
  "    [\"name\"],",
  ")",
  "",
  "voiceroi_circuit_rejections_total = Counter(",
  "    \"voiceroi_circuit_rejections_total\",",
  "    \"Rejected calls (circuit open)\",",
  "    [\"name\"],",
  ")",
  "",
  "voiceroi_circuit_timeouts_total = Counter(",
  "    \"voiceroi_circuit_timeouts_total\",",
  "    \"Timed out calls\",",
  "    [\"name\"],",
  ")",
  "",
  "voiceroi_circuit_state = Gauge(",
  "    \"voiceroi_circuit_state\",",
  "    \"Current circuit state (0=CLOSED, 0.5=HALF_OPEN, 1=OPEN)\",",
  "    [\"name\"],",
  ")",
  "",
  "voiceroi_circuit_consecutive_opens = Gauge(",
  "    \"voiceroi_circuit_consecutive_opens\",",
  "    \"Number of consecutive OPEN transitions\",",
  "    [\"name\"],",
  ")",
  "",
  "voiceroi_circuit_success_rate = Gauge(",
  "    \"voiceroi_circuit_success_rate\",",
  "    \"Success rate percentage\",",
  "    [\"name\"],",
  ")",
  "",
  "# Query Metrics",
  "voiceroi_query_total = Counter(",
  "    \"voiceroi_query_total\",",
  "    \"Total queries processed\",",
  "    [\"layer\", \"source\"],",
  ")",
  "",
  "voiceroi_query_latency_seconds = Gauge(",
  "    \"voiceroi_query_latency_seconds\",",
  "    \"Query latency in seconds\",",
  "    [\"layer\"],",
  ")",
  "",
  "",
  "def get_metrics_output() -> bytes:",
  "    \"\"\"Generate Prometheus metrics output.\"\"\"",
  "    return generate_latest()",
  ""
]

/-! ## The script's file-patching steps -/

/-- The content transformation applied by `step3_fix_main_get_embedding`
(lines 196–227) to the text of `app/main.py`: replace `get_embedding` using
the primary pattern if it matches, else using the fallback pattern if that
matches, else leave the text alone (a warning is printed); then apply the
`APP_VERSION` substitution unconditionally. -/
def step3_transform (content : String) : String :=
  let content1 :=
    if pySearch primaryPattern content then
      pySub primaryPattern (pyStrip GET_EMBEDDING_FIXED) content
    else if pySearch altPattern content then
      pySub altPattern (pyStrip GET_EMBEDDING_FIXED) content
    else content
  pySub appVersionPattern APP_VERSION_REPLACEMENT content1

/-- A file system: paths to optional file contents. -/
def FS := String → Option String

/-- Writing a file (Python `open(p, "w")` + `write`): creates or
overwrites. -/
def FS.write (fs : FS) (p c : String) : FS :=
  fun q => if q = p then some c else fs q

/-- `RAG_API_PATH` from the script (line 16). -/
def RAG_API_PATH : String := "/Users/michaelweiss/RAG API/voiceroi-rag-api"

/-- Whether a path string begins with the POSIX separator `/`. -/
def startsWithSlash (s : String) : Bool :=
  match s.data with
  | [] => false
  | c :: _ => c = '/'

/-- Whether a path string ends with the POSIX separator `/`. -/
def endsWithSlash (s : String) : Bool :=
  match s.data.getLast? with
  | some c => c = '/'
  | none => false

/-- POSIX `os.path.join` for the forms the script uses: a second component
that is absolute wins, otherwise the parts are joined with a single `/`. -/
def osPathJoin (a b : String) : String :=
  if startsWithSlash b then b
  else if endsWithSlash a then a ++ b
  else a ++ "/" ++ b

/-- `os.path.join(RAG_API_PATH, "app/services/infra.py")` (line 149). -/
def infraPath : String := osPathJoin RAG_API_PATH "app/services/infra.py"

/-- `os.path.join(RAG_API_PATH, "app/main.py")` (line 186). -/
def mainPath : String := osPathJoin RAG_API_PATH "app/main.py"

/-- `os.path.join(RAG_API_PATH, "app/metrics.py")` (line 314). -/
def metricsPath : String := osPathJoin RAG_API_PATH "app/metrics.py"

/-- `step2_fix_infra` (lines 144–162): if `app/services/infra.py` exists,
copy its content to `infra.py.backup`; then overwrite the file with
`INFRA_PY_FIXED`.  Total: `open(..., "w")` creates missing files. -/
def step2_fix_infra (fs : FS) : FS :=
  let fs1 : FS :=
    match fs infraPath with
    | some original => fs.write (infraPath ++ ".backup") original
    | none => fs
  fs1.write infraPath INFRA_PY_FIXED

/-- `step3_fix_main_get_embedding` (lines 181–227) as a file-system step:
read `app/main.py` (raising `FileNotFoundError` if absent), write the backup
unconditionally, then write back `step3_transform` of the content. -/
def step3_fix_main (fs : FS) : Except PyErr FS :=
  match fs mainPath with
  | none => .error (.fileNotFoundError mainPath)
  | some content =>
    let fs1 := fs.write (mainPath ++ ".backup") content
    .ok (fs1.write mainPath (step3_transform content))

/-- `step4_fix_metrics` (lines 309–324): if `app/metrics.py` exists, copy its
content to `metrics.py.backup`; then overwrite with `METRICS_PY_FIXED`. -/
def step4_fix_metrics (fs : FS) : FS :=
  let fs1 : FS :=
    match fs metricsPath with
    | some original => fs.write (metricsPath ++ ".backup") original
    | none => fs
  fs1.write metricsPath METRICS_PY_FIXED

/-- The file-system effect of the patching phase run by `__main__`
(`step1_verify_state` only runs `grep` and writes nothing; steps 5 and 6
write no files either). -/
def runPatchSteps (fs : FS) : Except PyErr FS :=
  match step3_fix_main (step2_fix_infra fs) with
  | .error e => .error e
  | .ok fs3 => .ok (step4_fix_metrics fs3)

/-! ## The `__main__` flow -/

/-- The top-level functions defined by the script. -/
inductive ScriptStep where
  | step1_verify_state
  | step2_fix_infra
  | step3_fix_main_get_embedding
  | step4_fix_metrics
  | step5_deploy
  | step6_verify
deriving DecidableEq, Repr

/-- The sequence of step functions the `if __name__ == "__main__":` block
actually calls (lines 398–407), in order. -/
def mainInvokedSteps : List ScriptStep :=
  [.step1_verify_state, .step2_fix_infra, .step3_fix_main_get_embedding,
   .step4_fix_metrics]

/-- The follow-up commands the `__main__` block merely prints for the
operator to run by hand (lines 409–417); deployment and verification are
among them, not among the invoked steps. -/
def mainPrintedInstructions : List String :=
  ["cd \"" ++ RAG_API_PATH ++ "\"",
   "fly deploy --now",
   "python3 -c \x27from CLAUDE_EXECUTE_NOW import step6_verify; step6_verify()\x27"]

/-! ## The installed `infra.py` code, as Lean functions

These functions model the behaviour of the Python code in `INFRA_PY_FIXED`
(the text the script writes to `app/services/infra.py`). -/

/-- The Redis client object built by `Redis.from_url` in `get_redis_client`
(the two float socket-timeout keyword arguments are configuration constants
that no claim depends on and floats are not modelled). -/
structure RedisClient where
  url : String
  decode_responses : Bool
deriving DecidableEq, Repr

/-- `Redis.from_url(redis_url, decode_responses=True, ...)`. -/
def Redis.from_url (url : String) : RedisClient :=
  { url := url, decode_responses := true }

/-- `get_redis_client` from `INFRA_PY_FIXED` (template lines: `async def
get_redis_client`): the module global `_redis_client` is the `st` argument,
the environment value of `REDIS_URL` is `env` (`none` = unset); returns the
call's result together with the new value of the global.  `if not redis_url`
is true for an unset variable and for the empty string. -/
def get_redis_client (env : Option String) (st : Option RedisClient) :
    Except PyErr RedisClient × Option RedisClient :=
  match st with
  | some c => (.ok c, some c)
  | none =>
    match env with
    | none => (.error (.valueError "REDIS_URL not configured"), none)
    | some url =>
      if url = "" then (.error (.valueError "REDIS_URL not configured"), none)
      else (.ok (Redis.from_url url), some (Redis.from_url url))

/-- The observable outcome of `breaker.call(op)` as seen by the `try:` blocks
in `INFRA_PY_FIXED`: the call returns a value, raises `CircuitBreakerOpen`,
or raises some other exception (the wrapped operation's own error, which the
breaker propagates). -/
inductive BreakerCallOutcome (α : Type) where
  | success (v : α)
  | circuitOpen
  | failure (e : PyErr)
deriving DecidableEq, Repr

/-- What `embed_text` raises to its caller. -/
inductive EmbedErr where
  | circuitBreakerOpen
  | wrapped (e : PyErr)
deriving DecidableEq, Repr

/-- `embed_text` from `INFRA_PY_FIXED`: awaits
`embedding_breaker.call(_do_embed)` and returns its value; the two `except`
clauses log and re-`raise` both `CircuitBreakerOpen` and any other exception
unchanged.  `α` is the type of the embedding vector `_do_embed` returns. -/
def embed_text {α : Type} (_text : String) (outcome : BreakerCallOutcome α) :
    Except EmbedErr α :=
  match outcome with
  | .success v => .ok v
  | .circuitOpen => .error .circuitBreakerOpen
  | .failure e => .error (.wrapped e)

/-- `health_check` from `INFRA_PY_FIXED`, as the dict it returns (an
association list in source order): `{"redis": ..., "status": ...}` plus an
`"error"` entry in the generic-exception branch.  The argument is the
outcome of `redis_breaker.call(_do_ping)` (whose value is `True`). -/
def health_check (outcome : BreakerCallOutcome Bool) : List (String × String) :=
  match outcome with
  | .success _ => [("redis", "connected"), ("status", "healthy")]
  | .circuitOpen => [("redis", "circuit_open"), ("status", "degraded")]
  | .failure e => [("redis", "error"), ("status", "unhealthy"), ("error", e.toStr)]

/-! ## The installed `metrics.py` module, as data -/

/-- The kind of a Prometheus metric object. -/
inductive MetricKind where
  | counter
  | gauge
deriving DecidableEq, Repr

/-- A metric declaration: constructor kind, metric name, help text, label
names — the three positional arguments of `Counter(...)` / `Gauge(...)`. -/
structure Metric where
  kind : MetricKind
  name : String
  help : String
  labels : List String
deriving DecidableEq, Repr

/-- `voiceroi_circuit_calls_total` from `METRICS_PY_FIXED`. -/
def voiceroi_circuit_calls_total : Metric :=
  ⟨.counter, "voiceroi_circuit_calls_total",
   "Total calls through circuit breaker", ["name"]⟩

/-- `voiceroi_circuit_successes_total` from `METRICS_PY_FIXED`. -/
def voiceroi_circuit_successes_total : Metric :=
  ⟨.counter, "voiceroi_circuit_successes_total",
   "Successful calls through circuit breaker", ["name"]⟩

/-- `voiceroi_circuit_failures_total` from `METRICS_PY_FIXED`. -/
def voiceroi_circuit_failures_total : Metric :=
  ⟨.counter, "voiceroi_circuit_failures_total",
   "Failed calls through circuit breaker", ["name"]⟩

/-- `voiceroi_circuit_rejections_total` from `METRICS_PY_FIXED`. -/
def voiceroi_circuit_rejections_total : Metric :=
  ⟨.counter, "voiceroi_circuit_rejections_total",
   "Rejected calls (circuit open)", ["name"]⟩

/-- `voiceroi_circuit_timeouts_total` from `METRICS_PY_FIXED`. -/
def voiceroi_circuit_timeouts_total : Metric :=
  ⟨.counter, "voiceroi_circuit_timeouts_total", "Timed out calls", ["name"]⟩

/-- `voiceroi_circuit_state` from `METRICS_PY_FIXED`. -/
def voiceroi_circuit_state : Metric :=
  ⟨.gauge, "voiceroi_circuit_state",
   "Current circuit state (0=CLOSED, 0.5=HALF_OPEN, 1=OPEN)", ["name"]⟩

/-- `voiceroi_circuit_consecutive_opens` from `METRICS_PY_FIXED`. -/
def voiceroi_circuit_consecutive_opens : Metric :=
  ⟨.gauge, "voiceroi_circuit_consecutive_opens",
   "Number of consecutive OPEN transitions", ["name"]⟩

/-- `voiceroi_circuit_success_rate` from `METRICS_PY_FIXED`. -/
def voiceroi_circuit_success_rate : Metric :=
  ⟨.gauge, "voiceroi_circuit_success_rate", "Success rate percentage",
   ["name"]⟩

/-- `voiceroi_query_total` from `METRICS_PY_FIXED`. -/
def voiceroi_query_total : Metric :=
  ⟨.counter, "voiceroi_query_total", "Total queries processed",
   ["layer", "source"]⟩

/-- `voiceroi_query_latency_seconds` from `METRICS_PY_FIXED`. -/
def voiceroi_query_latency_seconds : Metric :=
  ⟨.gauge, "voiceroi_query_latency_seconds", "Query latency in seconds",
   ["layer"]⟩

/-- The metric objects defined by `METRICS_PY_FIXED`, in source order. -/
def metricsModule : List Metric :=
  [voiceroi_circuit_calls_total, voiceroi_circuit_successes_total,
   voiceroi_circuit_failures_total, voiceroi_circuit_rejections_total,
   voiceroi_circuit_timeouts_total, voiceroi_circuit_state,
   voiceroi_circuit_consecutive_opens, voiceroi_circuit_success_rate,
   voiceroi_query_total, voiceroi_query_latency_seconds]

/-! ## The circuit breaker, modelled from the specification

The breaker lives in `app.middleware.circuit_breaker` of the target service;
that module is not among this repository's sources (the installed
`infra.py` only imports `embedding_breaker`, `redis_breaker` and
`CircuitBreakerOpen` from it), so it is modelled from the specification's
state-machine contract (spec §3, §4.1). -/

namespace SpecBreaker

/-- Modelled from the spec: the breaker state, "one of {CLOSED, OPEN,
HALF_OPEN}" (spec §3); `opened` is the spec's OPEN. -/
inductive BreakerState where
  | closed
  | opened
  | halfOpen
deriving DecidableEq, Repr

/-- Modelled from the spec: the CircuitBreaker data model (spec §3) —
`name`, `state`, `failure_count`, `failure_threshold`, `open_since`,
`reset_timeout`, `consecutive_opens`; timestamps and durations are natural
numbers. -/
structure CircuitBreaker where
  name : String
  state : BreakerState
  failure_count : Nat
  failure_threshold : Nat
  open_since : Nat
  reset_timeout : Nat
  consecutive_opens : Nat
deriving DecidableEq, Repr

/-- What `call` yields to the caller: the operation's value, a BreakerOpen
rejection, or the wrapped operation's own error propagated unchanged. -/
inductive CallOutcome (α : Type) where
  | value (v : α)
  | rejected
  | raised (e : PyErr)
deriving DecidableEq, Repr

/-- One call through the breaker: the outcome, whether the wrapped operation
was actually invoked, and the breaker afterwards. -/
structure CallStep (α : Type) where
  result : CallOutcome α
  invoked : Bool
  after : CircuitBreaker

/-- Modelled from the spec: `call(operation)` (spec §4.1).  `now` is the
current time and `op` the behaviour of the wrapped operation if it were
invoked.  CLOSED: execute; on success reset `failure_count`, on failure
increment it and transition to OPEN when it reaches `failure_threshold`
(recording `open_since := now` and bumping `consecutive_opens`).  OPEN: if
`now - open_since < reset_timeout`, reject immediately without invoking the
operation; otherwise transition to HALF_OPEN and let the call through as the
probe.  HALF_OPEN probe: success closes the breaker and resets the count;
failure reopens it with a fresh `open_since`. -/
def CircuitBreaker.call {α : Type} (b : CircuitBreaker) (now : Nat)
    (op : Except PyErr α) : CallStep α :=
  match b.state with
  | .closed =>
    match op with
    | .ok v => ⟨.value v, true, { b with failure_count := 0 }⟩
    | .error e =>
      let n := b.failure_count + 1
      if b.failure_threshold ≤ n then
        ⟨.raised e, true,
         { b with state := .opened, failure_count := n, open_since := now,
                  consecutive_opens := b.consecutive_opens + 1 }⟩
      else ⟨.raised e, true, { b with failure_count := n }⟩
  | .opened =>
    if now - b.open_since < b.reset_timeout then
      ⟨.rejected, false, b⟩
    else
      match op with
      | .ok v => ⟨.value v, true, { b with state := .closed, failure_count := 0 }⟩
      | .error e =>
        ⟨.raised e, true,
         { b with state := .opened, open_since := now,
                  consecutive_opens := b.consecutive_opens + 1 }⟩
  | .halfOpen =>
    match op with
    | .ok v => ⟨.value v, true, { b with state := .closed, failure_count := 0 }⟩
    | .error e =>
      ⟨.raised e, true,
       { b with state := .opened, open_since := now,
                consecutive_opens := b.consecutive_opens + 1 }⟩

end SpecBreaker

/-! ## Concrete inputs used by witnesses and sanity checks -/

/-- The everywhere-empty file system (no target file exists). -/
def emptyFS : FS := fun _ => none

/-- A file system in which the three target files exist with distinct
original contents. -/
def fsAllPresent : FS := fun p =>
  if p = infraPath then some "old infra" else
  if p = mainPath then some "old main" else
  if p = metricsPath then some "old metrics" else none

/-- A sample `app/main.py` content whose `get_embedding` matches the primary
pattern. -/
def sampleMainBefore : String :=
  "import x\n\nasync def get_embedding(text: str) -> list[float]:\n    resp = await client.embeddings.create(input=text)\n    return resp.data[0].embedding\n\nAPP_VERSION = \"1.0.5\"\n"

/-- What CPython's `re`-based `step3_fix_main_get_embedding` produces on
`sampleMainBefore` (computed with CPython 3 and used as a regression check of
the regex model). -/
def sampleMainAfter : String :=
  "import x\n\nasync def get_embedding(text: str) -> list[float]:\n    \"\"\"\n    Get embedding for semantic cache lookup.\n    Routes through canonical embed_text() which is protected by circuit breaker.\n    \n    IMPORTANT: This function MUST call embed_text from infra.py to ensure\n    all embeddings go through the circuit breaker.\n    \"\"\"\n    from app.services.infra import embed_text\n    return await embed_text(text)\n\nAPP_VERSION = \"1.0.6-circuit-breakers-fixed\"\n"

/-! ## Helper lemmas -/

theorem FS.write_self (fs : FS) (p c : String) : fs.write p c p = some c := by
  simp [FS.write]

theorem FS.write_ne (fs : FS) (p c q : String) (h : q ≠ p) :
    fs.write p c q = fs q := by
  simp [FS.write, h]

/-- If the pattern matches at no position, the `re.sub` scan copies the
input unchanged (for any fuel). -/
theorem pySubAux_eq_self_of_searchAux_false (r : RE) (repl : List Char) :
    ∀ (s : List Char) (fuel : Nat), pySearchAux r s = false →
      pySubAux r repl fuel s = s := by
  intro s
  induction s with
  | nil =>
    intro fuel h
    cases fuel with
    | zero => rfl
    | succ f =>
      cases htm : tryMatch r [] with
      | some t => rw [pySearchAux, htm] at h; simp at h
      | none => simp [pySubAux, htm]
  | cons c rest ih =>
    intro fuel h
    cases fuel with
    | zero => rfl
    | succ f =>
      cases htm : tryMatch r (c :: rest) with
      | some t => rw [pySearchAux, htm] at h; simp at h
      | none =>
        rw [pySearchAux, htm] at h
        simp only [Option.isSome_none, Bool.false_or] at h
        simp [pySubAux, htm, ih f h]

/-- `re.sub` is the identity when `re.search` finds nothing. -/
theorem pySub_eq_self_of_pySearch_false (r : RE) (repl : String) (s : String)
    (h : pySearch r s = false) : pySub r repl s = s := by
  unfold pySearch at h
  unfold pySub
  rw [pySubAux_eq_self_of_searchAux_false r repl.data s.data _ h]

/-- Regression check of the regex model against CPython: on
`sampleMainBefore` the primary pattern matches (the fallback does not) and
the full transformation agrees with what CPython's `re.sub` produces. -/
theorem step3_transform_agrees_with_cpython_sample :
    pySearch primaryPattern sampleMainBefore = true ∧
    pySearch altPattern sampleMainBefore = false ∧
    step3_transform sampleMainBefore = sampleMainAfter := by
  refine ⟨by decide, by decide, by decide⟩

/-! ## Claims -/

/-- C1 (counterexample): the claim that the `__main__` flow invokes
`step5_deploy` is false — the `if __name__ == "__main__":` block calls only
steps 1–4 and `step5_deploy` is not among the invoked steps. -/
theorem c1_counterexample_step5_not_invoked :
    ScriptStep.step5_deploy ∉ mainInvokedSteps := by decide

/-- C1 (amended): when the script runs as the main program it performs the
patching phase only — `__main__` invokes `step1_verify_state` and the three
patch steps, does not invoke `step5_deploy` or `step6_verify`, and instead
prints the deploy command and the smoke-test invocation for the operator to
run manually. -/
theorem c1_amended_main_flow :
    mainInvokedSteps =
      [.step1_verify_state, .step2_fix_infra, .step3_fix_main_get_embedding,
       .step4_fix_metrics] ∧
    ScriptStep.step5_deploy ∉ mainInvokedSteps ∧
    ScriptStep.step6_verify ∉ mainInvokedSteps ∧
    "fly deploy --now" ∈ mainPrintedInstructions ∧
    "python3 -c \x27from CLAUDE_EXECUTE_NOW import step6_verify; step6_verify()\x27"
      ∈ mainPrintedInstructions := by decide

/-- C3: `step3_fix_main_get_embedding` replaces `get_embedding` via the
primary pattern when it matches, else via the fallback pattern when that
matches; when neither matches the content is written back with only the
`APP_VERSION` substitution applied — in particular, if the `APP_VERSION`
pattern does not occur either, the file content is written back exactly
unchanged; the `APP_VERSION` substitution is applied in every branch. -/
theorem c3_step3_regex_branches (content : String) :
    (pySearch primaryPattern content = true →
      step3_transform content =
        pySub appVersionPattern APP_VERSION_REPLACEMENT
          (pySub primaryPattern (pyStrip GET_EMBEDDING_FIXED) content)) ∧
    (pySearch primaryPattern content = false →
      pySearch altPattern content = true →
      step3_transform content =
        pySub appVersionPattern APP_VERSION_REPLACEMENT
          (pySub altPattern (pyStrip GET_EMBEDDING_FIXED) content)) ∧
    (pySearch primaryPattern content = false →
      pySearch altPattern content = false →
      step3_transform content =
        pySub appVersionPattern APP_VERSION_REPLACEMENT content ∧
      (pySearch appVersionPattern content = false →
        step3_transform content = content)) := by
  refine ⟨fun h1 => ?_, fun h1 h2 => ?_, fun h1 h2 => ⟨?_, fun h3 => ?_⟩⟩
  · simp [step3_transform, h1]
  · simp [step3_transform, h1, h2]
  · simp [step3_transform, h1, h2]
  · simp [step3_transform, h1, h2, pySub_eq_self_of_pySearch_false _ _ _ h3]

/-- C3 (witness): on the one-character content `"x"` no pattern matches and
the transformation writes the content back unchanged. -/
theorem c3_step3_regex_branches_witness : step3_transform "x" = "x" :=
  ((c3_step3_regex_branches "x").2.2 (by decide) (by decide)).2 (by decide)

/-- C4: the installed `health_check` returns a dict whose `"status"` is
exactly one of `"healthy"`, `"degraded"`, `"unhealthy"`: `"healthy"` when the
redis ping succeeds through the breaker, `"degraded"` exactly when
`CircuitBreakerOpen` is raised, `"unhealthy"` on any other exception. -/
theorem c4_health_check_status (o : BreakerCallOutcome Bool) :
    ((health_check o).lookup "status" = some "healthy" ∨
     (health_check o).lookup "status" = some "degraded" ∨
     (health_check o).lookup "status" = some "unhealthy") ∧
    (∀ v, o = .success v →
      (health_check o).lookup "status" = some "healthy") ∧
    ((health_check o).lookup "status" = some "degraded" ↔ o = .circuitOpen) ∧
    (∀ e, o = .failure e →
      (health_check o).lookup "status" = some "unhealthy") := by
  cases o <;> simp [health_check, List.lookup]

/-- C4 (witness): when `redis_breaker.call` raises `CircuitBreakerOpen` the
reported status is `"degraded"`. -/
theorem c4_health_check_status_witness :
    (health_check (BreakerCallOutcome.circuitOpen (α := Bool))).lookup "status"
      = some "degraded" :=
  (c4_health_check_status .circuitOpen).2.2.1.mpr rfl

/-- C5: the installed `embed_text` propagates both `CircuitBreakerOpen` and
any wrapped-operation exception unchanged to its caller, never swallows
either, and only returns a value when the breaker call succeeded with that
value (no default is ever substituted). -/
theorem c5_embed_text_propagates {α : Type} (text : String)
    (o : BreakerCallOutcome α) :
    (o = .circuitOpen → embed_text text o = .error .circuitBreakerOpen) ∧
    (∀ e, o = .failure e → embed_text text o = .error (.wrapped e)) ∧
    (∀ v, o = .success v → embed_text text o = .ok v) ∧
    (∀ v : α, embed_text text o = .ok v → o = .success v) := by
  cases o <;> simp [embed_text]

/-- C5 (witness): with the breaker open, `embed_text` raises
`CircuitBreakerOpen` to its caller. -/
theorem c5_embed_text_propagates_witness :
    embed_text (α := Nat) "hello" .circuitOpen = .error .circuitBreakerOpen :=
  (c5_embed_text_propagates "hello" .circuitOpen).1 rfl

/-- C6: an unset `REDIS_URL` makes the installed `get_redis_client` raise
`ValueError("REDIS_URL not configured")` on the startup call (global still
`None`), and no client is constructed or cached — the model contains no
retry, so the configuration error is surfaced as-is. -/
theorem c6_missing_redis_url_fatal :
    get_redis_client none none =
      (.error (.valueError "REDIS_URL not configured"), none) ∧
    get_redis_client (some "") none =
      (.error (.valueError "REDIS_URL not configured"), none) := by
  constructor <;> rfl

/-- C7: the installed metrics module defines
`voiceroi_circuit_rejections_total` as a `Counter` distinct (by object and by
metric name) from both `voiceroi_circuit_calls_total` and
`voiceroi_circuit_failures_total`; all metric names in the module are
pairwise distinct. -/
theorem c7_metrics_rejections_separate :
    voiceroi_circuit_rejections_total ∈ metricsModule ∧
    voiceroi_circuit_calls_total ∈ metricsModule ∧
    voiceroi_circuit_failures_total ∈ metricsModule ∧
    voiceroi_circuit_rejections_total.kind = .counter ∧
    voiceroi_circuit_calls_total.kind = .counter ∧
    voiceroi_circuit_failures_total.kind = .counter ∧
    voiceroi_circuit_rejections_total.name ≠ voiceroi_circuit_calls_total.name ∧
    voiceroi_circuit_rejections_total.name ≠ voiceroi_circuit_failures_total.name ∧
    voiceroi_circuit_calls_total.name ≠ voiceroi_circuit_failures_total.name ∧
    (metricsModule.map Metric.name).Nodup := by decide

/-- C8: while the breaker is OPEN and `reset_timeout` has not elapsed since
`open_since`, a call is rejected with the BreakerOpen signal, the wrapped
operation is not invoked (so none of its side effects occur), and the
breaker is unchanged.  (The breaker is modelled from the spec, §4.1.) -/
theorem c8_open_rejects_without_invoking {α : Type}
    (b : SpecBreaker.CircuitBreaker) (now : Nat) (op : Except PyErr α)
    (hstate : b.state = .opened)
    (htime : now - b.open_since < b.reset_timeout) :
    (b.call now op).result = .rejected ∧
    (b.call now op).invoked = false ∧
    (b.call now op).after = b := by
  simp [SpecBreaker.CircuitBreaker.call, hstate, htime]

/-- C8 (witness): a breaker opened at `t = 100` with `reset_timeout = 60`
rejects a call at `t = 130` without invoking the (would-succeed)
operation. -/
theorem c8_open_rejects_without_invoking_witness :
    ((SpecBreaker.CircuitBreaker.mk "embedding" .opened 3 3 100 60 1).call 130
      (Except.ok (42 : Nat))).result = .rejected ∧
    ((SpecBreaker.CircuitBreaker.mk "embedding" .opened 3 3 100 60 1).call 130
      (Except.ok (42 : Nat))).invoked = false ∧
    ((SpecBreaker.CircuitBreaker.mk "embedding" .opened 3 3 100 60 1).call 130
      (Except.ok (42 : Nat))).after =
      SpecBreaker.CircuitBreaker.mk "embedding" .opened 3 3 100 60 1 :=
  c8_open_rejects_without_invoking _ 130 (.ok 42) rfl (by decide)

/-- C9: once the installed `get_redis_client` has cached a client in the
module global, every later call returns that same client and leaves the
global untouched whatever `REDIS_URL` now holds (unset included); the first
successful call is the one that constructs and caches the client. -/
theorem c9_get_redis_client_idempotent (c : RedisClient) (url : String)
    (hurl : url ≠ "") :
    (∀ env, get_redis_client env (some c) = (.ok c, some c)) ∧
    get_redis_client (some url) none =
      (.ok (Redis.from_url url), some (Redis.from_url url)) := by
  exact ⟨fun _ => rfl, by simp [get_redis_client, hurl]⟩

/-- C9 (witness): with a cached client built from `"redis://x"`, a later
call with `REDIS_URL` unset still returns the cached client; the first call
with `REDIS_URL = "redis://x"` builds and caches it. -/
theorem c9_get_redis_client_idempotent_witness :
    get_redis_client none (some (Redis.from_url "redis://x")) =
      (.ok (Redis.from_url "redis://x"), some (Redis.from_url "redis://x")) ∧
    get_redis_client (some "redis://x") none =
      (.ok (Redis.from_url "redis://x"), some (Redis.from_url "redis://x")) :=
  ⟨(c9_get_redis_client_idempotent (Redis.from_url "redis://x") "redis://x"
      (by decide)).1 none,
   (c9_get_redis_client_idempotent (Redis.from_url "redis://x") "redis://x"
      (by decide)).2⟩

/-- C2: when the three target files all exist, the patching phase succeeds
and afterwards each file's single `.backup` path holds exactly the file's
original pre-patch content, while the files themselves hold the new
contents (the backup is written from the content read before the
overwrite). -/
theorem c2_backups_written (fs : FS) (ci cm ck : String)
    (hi : fs infraPath = some ci) (hm : fs mainPath = some cm)
    (hk : fs metricsPath = some ck) :
    ∃ fs₂, runPatchSteps fs = .ok fs₂ ∧
      fs₂ (infraPath ++ ".backup") = some ci ∧
      fs₂ (mainPath ++ ".backup") = some cm ∧
      fs₂ (metricsPath ++ ".backup") = some ck ∧
      fs₂ infraPath = some INFRA_PY_FIXED ∧
      fs₂ mainPath = some (step3_transform cm) ∧
      fs₂ metricsPath = some METRICS_PY_FIXED := by
  have nmi : ¬(mainPath = infraPath) := by decide
  have nmib : ¬(mainPath = infraPath ++ ".backup") := by decide
  have nkm : ¬(metricsPath = mainPath) := by decide
  have nkmb : ¬(metricsPath = mainPath ++ ".backup") := by decide
  have nki : ¬(metricsPath = infraPath) := by decide
  have nkib : ¬(metricsPath = infraPath ++ ".backup") := by decide
  have a1 : ¬(infraPath ++ ".backup" = metricsPath) := by decide
  have a2 : ¬(infraPath ++ ".backup" = metricsPath ++ ".backup") := by decide
  have a3 : ¬(infraPath ++ ".backup" = mainPath) := by decide
  have a4 : ¬(infraPath ++ ".backup" = mainPath ++ ".backup") := by decide
  have a5 : ¬(infraPath ++ ".backup" = infraPath) := by decide
  have b1 : ¬(mainPath ++ ".backup" = metricsPath) := by decide
  have b2 : ¬(mainPath ++ ".backup" = metricsPath ++ ".backup") := by decide
  have b3 : ¬(mainPath ++ ".backup" = mainPath) := by decide
  have k1 : ¬(metricsPath ++ ".backup" = metricsPath) := by decide
  have d1 : ¬(infraPath = metricsPath) := by decide
  have d2 : ¬(infraPath = metricsPath ++ ".backup") := by decide
  have d3 : ¬(infraPath = mainPath) := by decide
  have d4 : ¬(infraPath = mainPath ++ ".backup") := by decide
  have g1 : ¬(mainPath = metricsPath) := by decide
  have g2 : ¬(mainPath = metricsPath ++ ".backup") := by decide
  have e2 : step2_fix_infra fs =
      (fs.write (infraPath ++ ".backup") ci).write infraPath INFRA_PY_FIXED := by
    simp only [step2_fix_infra, hi]
  have hm2 : step2_fix_infra fs mainPath = some cm := by
    rw [e2]; simp [FS.write, nmi, nmib, hm]
  have e3 : step3_fix_main (step2_fix_infra fs) =
      .ok (((step2_fix_infra fs).write (mainPath ++ ".backup") cm).write mainPath
        (step3_transform cm)) := by
    simp only [step3_fix_main, hm2]
  have hk2 : (((step2_fix_infra fs).write (mainPath ++ ".backup") cm).write
      mainPath (step3_transform cm)) metricsPath = some ck := by
    rw [e2]; simp [FS.write, nkm, nkmb, nki, nkib, hk]
  have e4 : runPatchSteps fs =
      .ok ((((((step2_fix_infra fs).write (mainPath ++ ".backup") cm).write
        mainPath (step3_transform cm)).write (metricsPath ++ ".backup")
        ck).write metricsPath METRICS_PY_FIXED)) := by
    simp only [runPatchSteps, e3, step4_fix_metrics, hk2]
  refine ⟨_, e4, ?_, ?_, ?_, ?_, ?_, ?_⟩ <;> rw [e2] <;>
    simp [FS.write, a1, a2, a3, a4, a5, b1, b2, b3, k1, d1, d2, d3, d4, g1, g2]

/-- C2 (witness): a file system with all three targets present, with
distinct original contents. -/
theorem c2_backups_written_witness :
    ∃ fs₂, runPatchSteps fsAllPresent = .ok fs₂ ∧
      fs₂ (infraPath ++ ".backup") = some "old infra" ∧
      fs₂ (mainPath ++ ".backup") = some "old main" ∧
      fs₂ (metricsPath ++ ".backup") = some "old metrics" ∧
      fs₂ infraPath = some INFRA_PY_FIXED ∧
      fs₂ mainPath = some (step3_transform "old main") ∧
      fs₂ metricsPath = some METRICS_PY_FIXED :=
  c2_backups_written fsAllPresent "old infra" "old main" "old metrics"
    (by decide) (by decide) (by decide)

/-- C10: when a target file is absent before patching, `step2_fix_infra` and
`step4_fix_metrics` skip the backup (the `.backup` path stays absent) and
still write the new file content; in the model both steps are total, so no
error is raised. -/
theorem c10_absent_targets_no_backup (fs : FS)
    (hi : fs infraPath = none) (hib : fs (infraPath ++ ".backup") = none)
    (hk : fs metricsPath = none) (hkb : fs (metricsPath ++ ".backup") = none) :
    (step2_fix_infra fs) (infraPath ++ ".backup") = none ∧
    (step2_fix_infra fs) infraPath = some INFRA_PY_FIXED ∧
    (step4_fix_metrics fs) (metricsPath ++ ".backup") = none ∧
    (step4_fix_metrics fs) metricsPath = some METRICS_PY_FIXED := by
  have a5 : ¬(infraPath ++ ".backup" = infraPath) := by decide
  have k1 : ¬(metricsPath ++ ".backup" = metricsPath) := by decide
  refine ⟨?_, ?_, ?_, ?_⟩ <;>
    simp [step2_fix_infra, step4_fix_metrics, hi, hk, FS.write, a5, k1, hib, hkb]

/-- C10 (witness): on the empty file system neither `.backup` file appears
and both targets receive the new contents. -/
theorem c10_absent_targets_no_backup_witness :
    (step2_fix_infra emptyFS) (infraPath ++ ".backup") = none ∧
    (step2_fix_infra emptyFS) infraPath = some INFRA_PY_FIXED ∧
    (step4_fix_metrics emptyFS) (metricsPath ++ ".backup") = none ∧
    (step4_fix_metrics emptyFS) metricsPath = some METRICS_PY_FIXED :=
  c10_absent_targets_no_backup emptyFS rfl rfl rfl rfl
